import Mathlib

/-!
Shallow embedding of `src/Zad2Lab1/index.js`, a canvas drag-to-stamp drawing
program.  The mouse handlers installed by `installMouseHandler` are modelled
as pure state transformers that emit a trace of canvas-context operations,
and the graphics-context extras (`fillPoly`, `strokePoly`, `fillOval`,
`strokeOval`, ...) as functions from their arguments to operation traces.

Event positions are the integer canvas coordinates obtained by the
handlers' `Math.round(client - rect)` translation.  Canvas path coordinates
live in a general field `α`, with the
trigonometric functions and `Math.PI` passed as parameters `rcos`, `rsin`,
`rpi`; the theorems instantiate `α := ℝ` with `Real.cos`, `Real.sin`,
`Real.pi`, while concrete witness evaluations may instantiate `α := ℚ`.
-/

namespace Lab1

/-- Operations issued against the canvas 2D graphics context, with path
coordinates in `α`.  The rectangle stamp of `doMouseMove` passes integer
canvas coordinates, so `fillRect`/`strokeRect` carry integers. -/
inductive CanvasOp (α : Type) where
  | setFillStyle (s : String)
  | fillRect (x y w h : ℤ)
  | strokeRect (x y w h : ℤ)
  | beginPath
  | moveTo (x y : α)
  | lineTo (x y : α)
  | closePath
  | fill
  | stroke
  | save
  | restore
  | translate (x y : α)
  | scale (x y : α)
  | arc (x y r a0 a1 : α) (ccw : Bool)
  deriving DecidableEq

/-- Whether an operation paints pixels (fill/stroke of a rect or a path). -/
def CanvasOp.isPaint {α : Type} : CanvasOp α → Bool
  | .fillRect _ _ _ _ => true
  | .strokeRect _ _ _ _ => true
  | .fill => true
  | .stroke => true
  | _ => false

/-- Whether an operation assigns `graphics.fillStyle`. -/
def CanvasOp.isSetStyle {α : Type} : CanvasOp α → Bool
  | .setFillStyle _ => true
  | _ => false

/-- Whether an operation is a path-construction command (moveTo/lineTo). -/
def CanvasOp.isPathCmd {α : Type} : CanvasOp α → Bool
  | .moveTo _ _ => true
  | .lineTo _ _ => true
  | _ => false

/-- The fields of a mouse event read by the handlers.  The handlers use
only `Math.round(clientX - rect.left)` and `Math.round(clientY - rect.top)`;
positions are modelled as the integer canvas coordinates those roundings
produce (on integer-valued inputs `Math.round` is the identity). -/
structure MouseEvt where
  button : ℤ
  clientX : ℤ
  clientY : ℤ
  deriving DecidableEq

/-- Per-event reads from the environment: the canvas bounding rectangle
(`canvas.getBoundingClientRect()`), the two UI select values
(`colorChoice.value`, `shapeType.value` as numbers), and the three
`Math.random()` draws consumed by `randomColorString`. -/
structure EnvReads where
  rLeft : ℤ
  rTop : ℤ
  colorVal : ℤ
  shapeVal : ℤ
  rand1 : ℚ
  rand2 : ℚ
  rand3 : ℚ
  deriving DecidableEq

/-- `randomColorString()` from the source: each channel is
`Math.floor(256 * Math.random())`, rendered as an `rgb(r,g,b)` string. -/
def randomColorString (env : EnvReads) : String :=
  "rgb(" ++ toString ⌊256 * env.rand1⌋ ++ "," ++ toString ⌊256 * env.rand2⌋
    ++ "," ++ toString ⌊256 * env.rand3⌋ ++ ")"

/-- DOM event types the program registers document listeners for. -/
inductive EvType where
  | mousemove
  | mouseup
  deriving DecidableEq

/-- The two closures registered on `document`: `doMouseMove` and `doMouseUp`. -/
inductive Handler where
  | moveH
  | upH
  deriving DecidableEq

/-- The mutable state captured by `installMouseHandler`, together with the
set of (event type, handler) registrations currently on `document`.
The `var` slots that are `undefined` before the first drag are `Option`s. -/
structure DragState where
  dragging : Bool
  startX : Option ℤ
  startY : Option ℤ
  prevX : Option ℤ
  prevY : Option ℤ
  colorChoice : Option ℤ
  shapeType : Option ℤ
  docListeners : List (EvType × Handler)
  deriving DecidableEq

/-- State right after `installMouseHandler` runs: nothing set, no document
listeners registered. -/
def initState : DragState :=
  { dragging := false, startX := none, startY := none, prevX := none,
    prevY := none, colorChoice := none, shapeType := none, docListeners := [] }

/-- DOM `addEventListener`: adding an already-registered (type, handler)
pair is a no-op; otherwise the pair is appended. -/
def addListener (L : List (EvType × Handler)) (t : EvType) (h : Handler) :
    List (EvType × Handler) :=
  if (t, h) ∈ L then L else L ++ [(t, h)]

/-- DOM `removeEventListener`: removes the matching (type, handler) pair;
a pair that was never registered is silently ignored. -/
def removeListener (L : List (EvType × Handler)) (t : EvType) (h : Handler) :
    List (EvType × Handler) :=
  L.filter (fun p => decide (p ≠ (t, h)))

/-- `doMouseDown(evt)`: ignore when a drag is in progress or the button is
not the main one; otherwise translate the event position to canvas
coordinates, arm the drag, record start and previous position, register the
move and up document listeners, and capture the two UI selections. -/
def doMouseDown (s : DragState) (e : MouseEvt) (env : EnvReads) : DragState :=
  if s.dragging then s
  else if e.button ≠ 0 then s
  else
    let x := e.clientX - env.rLeft
    let y := e.clientY - env.rTop
    { dragging := true,
      startX := some x, startY := some y,
      prevX := some x, prevY := some y,
      colorChoice := some env.colorVal,
      shapeType := some env.shapeVal,
      docListeners :=
        addListener (addListener s.docListeners .mousemove .moveH)
          .mouseup .upH }

section Model

variable {α : Type} [Field α]

/-- The `switch (colorChoice)` of `doMouseMove`: assigns `fillStyle` for the
five known selections; any other value matches no case and assigns nothing. -/
def colorOps (oc : Option ℤ) (env : EnvReads) : List (CanvasOp α) :=
  if oc = some 0 then [.setFillStyle (randomColorString env)]
  else if oc = some 1 then [.setFillStyle "red"]
  else if oc = some 2 then [.setFillStyle "green"]
  else if oc = some 3 then [.setFillStyle "blue"]
  else if oc = some 4 then [.setFillStyle "yellow"]
  else []

/-- `case 1` of the shape switch: a 13-division star path of radius 50
around `(x, y)`.  One `moveTo` at angle 0, then `lineTo`s at angles
`i * 2 * pi / 13` for `i = 0 .. 13` inclusive, then fill and stroke. -/
def starOps (rcos rsin : α → α) (rpi : α) (x y : ℤ) : List (CanvasOp α) :=
  (CanvasOp.beginPath ::
    CanvasOp.moveTo ((x : α) + 50 * rcos 0) ((y : α) + 50 * rsin 0) ::
    (List.range 14).map (fun i : ℕ =>
      CanvasOp.lineTo ((x : α) + 50 * rcos ((i : α) * 2 * rpi / 13))
        ((y : α) + 50 * rsin ((i : α) * 2 * rpi / 13)))) ++
  [CanvasOp.fill, CanvasOp.stroke]

/-- The `switch (shapeType)` of `doMouseMove`: `0` stamps a filled and
stroked 40x40 rectangle centered at `(x, y)`, `1` stamps the star path;
any other value matches no case and draws nothing. -/
def shapeOps (rcos rsin : α → α) (rpi : α) (os : Option ℤ) (x y : ℤ) :
    List (CanvasOp α) :=
  if os = some 0 then
    [.fillRect (x - 20) (y - 20) 40 40, .strokeRect (x - 20) (y - 20) 40 40]
  else if os = some 1 then starOps rcos rsin rpi x y
  else []

/-- `doMouseMove(evt)`: ignore when not dragging; translate the event
position; discard the event when its Manhattan distance from
`(prevX, prevY)` is below 3; otherwise run the color switch, the shape
switch, and update `(prevX, prevY)`.  While dragging, `prevX`/`prevY` are
always set (they are assigned on mousedown); the unreachable case where
they are still `undefined` is modelled as a no-op. -/
def doMouseMove (rcos rsin : α → α) (rpi : α) (s : DragState) (e : MouseEvt)
    (env : EnvReads) : DragState × List (CanvasOp α) :=
  if s.dragging = false then (s, [])
  else
    let x := e.clientX - env.rLeft
    let y := e.clientY - env.rTop
    match s.prevX, s.prevY with
    | some px, some py =>
        if (x - px).natAbs + (y - py).natAbs < 3 then (s, [])
        else
          ({ s with prevX := some x, prevY := some y },
            colorOps s.colorChoice env ++ shapeOps rcos rsin rpi s.shapeType x y)
    | _, _ => (s, [])

/-- `doMouseUp(evt)`: ignore when not dragging; otherwise clear `dragging`
and then call `removeEventListener("mousemove", doMouseMove)` followed by
`removeEventListener("mouseup", doMouseMove)` — the source removes the
move handler for both event types, exactly as written on its last line. -/
def doMouseUp (s : DragState) : DragState :=
  if s.dragging = false then s
  else
    { s with
      dragging := false,
      docListeners :=
        removeListener (removeListener s.docListeners .mousemove .moveH)
          .mouseup .moveH }

/-- A pointer event delivered by the browser, with the environment reads
that would be performed while handling it. -/
inductive PtrEvent where
  | down (e : MouseEvt) (env : EnvReads)
  | move (e : MouseEvt) (env : EnvReads)
  | up (e : MouseEvt) (env : EnvReads)

/-- Run one registered document handler. -/
def runHandlerOps (rcos rsin : α → α) (rpi : α) (s : DragState) (h : Handler)
    (e : MouseEvt) (env : EnvReads) : DragState × List (CanvasOp α) :=
  match h with
  | .moveH => doMouseMove rcos rsin rpi s e env
  | .upH => (doMouseUp s, [])

/-- DOM dispatch on `document` for event type `t`: the handlers registered
for `t` at dispatch time run in registration order. -/
def dispatchDoc (rcos rsin : α → α) (rpi : α) (s : DragState) (t : EvType)
    (e : MouseEvt) (env : EnvReads) : DragState × List (CanvasOp α) :=
  (s.docListeners.filter (fun p => decide (p.1 = t))).foldl
    (fun acc p =>
      let r := runHandlerOps rcos rsin rpi acc.1 p.2 e env
      (r.1, acc.2 ++ r.2))
    (s, [])

/-- One browser event: mousedown goes to the canvas listener `doMouseDown`
(installed once and never removed); mousemove and mouseup are dispatched to
the document listeners currently registered. -/
def stepOps (rcos rsin : α → α) (rpi : α) (s : DragState) :
    PtrEvent → DragState × List (CanvasOp α)
  | .down e env => (doMouseDown s e env, [])
  | .move e env => dispatchDoc rcos rsin rpi s .mousemove e env
  | .up e env => dispatchDoc rcos rsin rpi s .mouseup e env

/-- Fold one event into an accumulated (state, emitted operations) pair. -/
def accStep (rcos rsin : α → α) (rpi : α)
    (acc : DragState × List (CanvasOp α)) (ev : PtrEvent) :
    DragState × List (CanvasOp α) :=
  let r := stepOps rcos rsin rpi acc.1 ev
  (r.1, acc.2 ++ r.2)

/-- Run a sequence of browser events from a given state, collecting every
canvas operation emitted along the way. -/
def runTrace (rcos rsin : α → α) (rpi : α) (s : DragState)
    (evs : List PtrEvent) : DragState × List (CanvasOp α) :=
  evs.foldl (accStep rcos rsin rpi) (s, [])

/-- A controller state is reachable when some event sequence produces it
from the freshly-installed state. -/
def Reachable (rcos rsin : α → α) (rpi : α) (s : DragState) : Prop :=
  ∃ evs : List PtrEvent, (runTrace rcos rsin rpi initState evs).1 = s

/-- The controller invariant: whenever a drag is active, a previous
position is recorded in `prevX`/`prevY`. -/
def PrevDefined (s : DragState) : Prop :=
  s.dragging = true → s.prevX ≠ none ∧ s.prevY ≠ none

/-! ### Graphics-context extras (`addGraphicsContextExtras`) -/

/-- `graphics.strokeLine(x1,y1,x2,y2)`. -/
def strokeLine (x1 y1 x2 y2 : α) : List (CanvasOp α) :=
  [.beginPath, .moveTo x1 y1, .lineTo x2 y2, .stroke]

/-- `graphics.fillCircle(x,y,r)`. -/
def fillCircle (rpi : α) (x y r : α) : List (CanvasOp α) :=
  [.beginPath, .arc x y r 0 (2 * rpi) false, .fill]

/-- `graphics.strokeCircle(x,y,radius)`. -/
def strokeCircle (rpi : α) (x y r : α) : List (CanvasOp α) :=
  [.beginPath, .arc x y r 0 (2 * rpi) false, .stroke]

/-- The `for (i = 2; i + 1 < arguments.length; i += 2) lineTo(...)` loop of
the polygon helpers: consumes complete coordinate pairs, and stops when no
full pair remains (a trailing unpaired argument is never read). -/
def lineTos : List α → List (CanvasOp α)
  | a :: b :: rest => CanvasOp.lineTo a b :: lineTos rest
  | _ => []

/-- `graphics.fillPoly(...)`: no-op below 6 arguments; otherwise moveTo the
first pair, lineTo each further complete pair, close the path, and fill. -/
def fillPoly (args : List α) : List (CanvasOp α) :=
  if args.length < 6 then []
  else
    match args with
    | a0 :: a1 :: rest =>
        CanvasOp.beginPath :: CanvasOp.moveTo a0 a1 ::
          (lineTos rest ++ [CanvasOp.closePath, CanvasOp.fill])
    | _ => []

/-- `graphics.strokePoly(...)`: no-op below 4 arguments; otherwise moveTo
the first pair, lineTo each further complete pair, close the path, stroke. -/
def strokePoly (args : List α) : List (CanvasOp α) :=
  if args.length < 4 then []
  else
    match args with
    | a0 :: a1 :: rest =>
        CanvasOp.beginPath :: CanvasOp.moveTo a0 a1 ::
          (lineTos rest ++ [CanvasOp.closePath, CanvasOp.stroke])
    | _ => []

/-- `graphics.fillOval(x,y,rh,rv)`: save, translate, scale, unit-circle
path, restore, and only then fill. -/
def fillOval (rpi : α) (x y rh rv : α) : List (CanvasOp α) :=
  [.save, .translate x y, .scale rh rv, .beginPath,
   .arc 0 0 1 0 (2 * rpi) false, .restore, .fill]

/-- `graphics.strokeOval(x,y,rh,rv)`: save, translate, scale, unit-circle
path, restore, and only then stroke. -/
def strokeOval (rpi : α) (x y rh rv : α) : List (CanvasOp α) :=
  [.save, .translate x y, .scale rh rv, .beginPath,
   .arc 0 0 1 0 (2 * rpi) false, .restore, .stroke]

/-! ### A small semantics for the transform-scoped drawing operations

The canvas transform used by this program is always a translation composed
with an axis-aligned scale, so a transform is four numbers.  Path points
are mapped through the transform current at path-construction time; `fill`
and `stroke` paint the already-constructed path under the transform current
at paint time. -/

/-- A translate-and-scale canvas transform. -/
structure Xform (α : Type) where
  tx : α
  ty : α
  sx : α
  sy : α

/-- The identity transform. -/
def Xform.id0 : Xform α := { tx := 0, ty := 0, sx := 1, sy := 1 }

/-- `context.translate(x, y)` composed onto a transform. -/
def Xform.translateBy (T : Xform α) (x y : α) : Xform α :=
  { tx := T.tx + T.sx * x, ty := T.ty + T.sy * y, sx := T.sx, sy := T.sy }

/-- `context.scale(x, y)` composed onto a transform. -/
def Xform.scaleBy (T : Xform α) (x y : α) : Xform α :=
  { tx := T.tx, ty := T.ty, sx := T.sx * x, sy := T.sy * y }

/-- A full-circle arc after transformation: an axis-aligned ellipse. -/
structure EllipseShape (α : Type) where
  cx : α
  cy : α
  rx : α
  ry : α

/-- Interpreter state: current transform, save/restore stack, current path,
and the list of (path, transform-at-paint-time) pairs painted so far. -/
structure InterpState (α : Type) where
  cur : Xform α
  stack : List (Xform α)
  path : List (EllipseShape α)
  painted : List (List (EllipseShape α) × Xform α)

/-- One canvas operation acting on the interpreter state. -/
def interpOp (st : InterpState α) : CanvasOp α → InterpState α
  | .save => { st with stack := st.cur :: st.stack }
  | .restore =>
      match st.stack with
      | T :: rest => { st with cur := T, stack := rest }
      | [] => st
  | .translate x y => { st with cur := st.cur.translateBy x y }
  | .scale x y => { st with cur := st.cur.scaleBy x y }
  | .beginPath => { st with path := [] }
  | .arc x y r _ _ _ =>
      { st with path := st.path ++
          [{ cx := st.cur.tx + st.cur.sx * x, cy := st.cur.ty + st.cur.sy * y,
             rx := st.cur.sx * r, ry := st.cur.sy * r }] }
  | .fill => { st with painted := st.painted ++ [(st.path, st.cur)] }
  | .stroke => { st with painted := st.painted ++ [(st.path, st.cur)] }
  | _ => st

/-- Run an operation trace from a fresh context (identity transform). -/
def interpRun (ops : List (CanvasOp α)) : InterpState α :=
  ops.foldl interpOp
    { cur := Xform.id0, stack := [], path := [], painted := [] }

/-- Complete coordinate pairs of a variadic polygon argument list. -/
def toPairs : List α → List (α × α)
  | a :: b :: rest => (a, b) :: toPairs rest
  | _ => []

end Model

/-! ### Helper lemmas -/

set_option linter.unusedSectionVars false

section Helpers

variable {α : Type} [Field α]

/-- Unfolding of `doMouseMove` on a qualifying move: while dragging, with a
recorded previous position at Manhattan distance at least 3, the handler
runs the color switch then the shape switch and updates the position. -/
lemma doMouseMove_qualifying (rcos rsin : α → α) (rpi : α) (s : DragState)
    (e : MouseEvt) (env : EnvReads) (px py : ℤ)
    (hd : s.dragging = true) (hx : s.prevX = some px) (hy : s.prevY = some py)
    (hge : 3 ≤ ((e.clientX - env.rLeft) - px).natAbs +
        ((e.clientY - env.rTop) - py).natAbs) :
    doMouseMove rcos rsin rpi s e env =
      ({ s with prevX := some ((e.clientX - env.rLeft)),
                prevY := some ((e.clientY - env.rTop)) },
        colorOps s.colorChoice env ++
          shapeOps rcos rsin rpi s.shapeType ((e.clientX - env.rLeft))
            ((e.clientY - env.rTop))) := by
  unfold doMouseMove
  rw [hd, hx, hy]
  simp [Nat.not_lt.mpr hge]

/-- The `lineTo` loop emits one command per complete coordinate pair. -/
lemma lineTos_eq_map_toPairs :
    ∀ l : List α, lineTos l = (toPairs l).map (fun q => CanvasOp.lineTo q.1 q.2)
  | [] => rfl
  | [_] => rfl
  | a :: b :: rest => by
      simp only [lineTos, toPairs, List.map_cons]
      exact congrArg _ (lineTos_eq_map_toPairs rest)

/-- A trailing unpaired argument after an even-length prefix is ignored by
the `lineTo` loop. -/
lemma lineTos_append_even :
    ∀ l : List α, ∀ a : α, l.length % 2 = 0 → lineTos (l ++ [a]) = lineTos l
  | [], _, _ => rfl
  | [b], _, h => by simp at h
  | x :: y :: t, a, h => by
      simp only [List.cons_append, lineTos]
      exact congrArg _ (lineTos_append_even t a (by simp at h; omega))

/-- A list of `lineTo` commands survives the path-command filter intact. -/
lemma filter_isPathCmd_map_lineTo (g h : ℕ → α) (l : List ℕ) :
    (l.map (fun k => CanvasOp.lineTo (g k) (h k))).filter CanvasOp.isPathCmd
      = l.map (fun k => CanvasOp.lineTo (g k) (h k)) := by
  apply List.filter_eq_self.mpr
  intro a ha
  obtain ⟨k, _, rfl⟩ := List.mem_map.mp ha
  rfl

/-- Explicit real-number form of the star path: the `moveTo` of the source
sits at angle 0, which is the angle `0 * 2 * pi / 13` of the vertex list. -/
lemma starOps_real_structure (x y : ℤ) :
    starOps Real.cos Real.sin Real.pi x y =
      CanvasOp.beginPath ::
        CanvasOp.moveTo
          ((x : ℝ) + 50 * Real.cos (((0 : ℕ) : ℝ) * 2 * Real.pi / 13))
          ((y : ℝ) + 50 * Real.sin (((0 : ℕ) : ℝ) * 2 * Real.pi / 13)) ::
        ((List.range 14).map (fun k : ℕ =>
          CanvasOp.lineTo
            ((x : ℝ) + 50 * Real.cos ((k : ℝ) * 2 * Real.pi / 13))
            ((y : ℝ) + 50 * Real.sin ((k : ℝ) * 2 * Real.pi / 13))) ++
          [CanvasOp.fill, CanvasOp.stroke]) := by
  simp [starOps]

/-- The shape switch never assigns a fill style. -/
lemma shapeOps_any_setStyle (rcos rsin : α → α) (rpi : α) (os : Option ℤ)
    (x y : ℤ) :
    (shapeOps rcos rsin rpi os x y).any CanvasOp.isSetStyle = false := by
  unfold shapeOps
  split_ifs
  · rfl
  · simp [starOps, CanvasOp.isSetStyle]
  · rfl

/-- The color switch never paints pixels. -/
lemma colorOps_any_paint (oc : Option ℤ) (env : EnvReads) :
    (colorOps (α := α) oc env).any CanvasOp.isPaint = false := by
  unfold colorOps
  split_ifs <;> rfl

/-- An unmatched shape index matches no case and draws nothing. -/
lemma shapeOps_unmatched (rcos rsin : α → α) (rpi : α) (os : Option ℤ)
    (x y : ℤ) (h0 : os ≠ some 0) (h1 : os ≠ some 1) :
    shapeOps rcos rsin rpi os x y = [] := by
  unfold shapeOps
  rw [if_neg h0, if_neg h1]

/-- An unmatched color index matches no case and assigns nothing. -/
lemma colorOps_unmatched (oc : Option ℤ) (env : EnvReads)
    (h0 : oc ≠ some 0) (h1 : oc ≠ some 1) (h2 : oc ≠ some 2)
    (h3 : oc ≠ some 3) (h4 : oc ≠ some 4) :
    colorOps (α := α) oc env = [] := by
  unfold colorOps
  rw [if_neg h0, if_neg h1, if_neg h2, if_neg h3, if_neg h4]

/-- `doMouseMove` either leaves the state unchanged or only updates the
previous position to the current one. -/
lemma doMouseMove_fst_cases (rcos rsin : α → α) (rpi : α) (s : DragState)
    (e : MouseEvt) (env : EnvReads) :
    (doMouseMove rcos rsin rpi s e env).1 = s ∨
    (doMouseMove rcos rsin rpi s e env).1 =
      { s with prevX := some (e.clientX - env.rLeft),
               prevY := some (e.clientY - env.rTop) } := by
  unfold doMouseMove
  split_ifs with h1
  · exact Or.inl rfl
  · cases hx : s.prevX with
    | none => simp [hx]
    | some px =>
      cases hy : s.prevY with
      | none => simp [hx, hy]
      | some py =>
        simp only [hx, hy]
        split_ifs with h2
        · exact Or.inl rfl
        · exact Or.inr rfl

/-- `doMouseDown` preserves the controller invariant. -/
lemma prevDefined_doMouseDown (s : DragState) (e : MouseEvt) (env : EnvReads)
    (hp : PrevDefined s) : PrevDefined (doMouseDown s e env) := by
  unfold doMouseDown
  split_ifs with h1 h2
  · exact hp
  · exact hp
  · intro _
    exact ⟨by simp, by simp⟩

/-- `doMouseMove` preserves the controller invariant. -/
lemma prevDefined_doMouseMove (rcos rsin : α → α) (rpi : α) (s : DragState)
    (e : MouseEvt) (env : EnvReads) (hp : PrevDefined s) :
    PrevDefined (doMouseMove rcos rsin rpi s e env).1 := by
  rcases doMouseMove_fst_cases rcos rsin rpi s e env with hc | hc <;> rw [hc]
  · exact hp
  · intro _
    exact ⟨by simp, by simp⟩

/-- `doMouseUp` preserves the controller invariant. -/
lemma prevDefined_doMouseUp (s : DragState) (hp : PrevDefined s) :
    PrevDefined (doMouseUp s) := by
  unfold doMouseUp
  split_ifs with h1
  · exact hp
  · intro hd
    simp at hd

/-- Any document handler preserves the controller invariant. -/
lemma prevDefined_runHandlerOps (rcos rsin : α → α) (rpi : α) (s : DragState)
    (hnd : Handler) (e : MouseEvt) (env : EnvReads) (hp : PrevDefined s) :
    PrevDefined (runHandlerOps rcos rsin rpi s hnd e env).1 := by
  cases hnd
  · exact prevDefined_doMouseMove rcos rsin rpi s e env hp
  · exact prevDefined_doMouseUp s hp

/-- The dispatch fold preserves the controller invariant. -/
lemma prevDefined_dispatchFold (rcos rsin : α → α) (rpi : α) (e : MouseEvt)
    (env : EnvReads) :
    ∀ (L : List (EvType × Handler)) (acc : DragState × List (CanvasOp α)),
      PrevDefined acc.1 →
      PrevDefined ((L.foldl (fun acc p =>
        let r := runHandlerOps rcos rsin rpi acc.1 p.2 e env
        (r.1, acc.2 ++ r.2)) acc).1)
  | [], _, hp => hp
  | p :: L, acc, hp => by
      simp only [List.foldl_cons]
      exact prevDefined_dispatchFold rcos rsin rpi e env L _
        (prevDefined_runHandlerOps rcos rsin rpi acc.1 p.2 e env hp)

/-- One browser event preserves the controller invariant. -/
lemma prevDefined_stepOps (rcos rsin : α → α) (rpi : α) (s : DragState)
    (ev : PtrEvent) (hp : PrevDefined s) :
    PrevDefined (stepOps rcos rsin rpi s ev).1 := by
  cases ev with
  | down e env => exact prevDefined_doMouseDown s e env hp
  | move e env =>
      exact prevDefined_dispatchFold rcos rsin rpi e env _ (s, []) hp
  | up e env =>
      exact prevDefined_dispatchFold rcos rsin rpi e env _ (s, []) hp

/-- Any event sequence preserves the controller invariant. -/
lemma prevDefined_runTrace (rcos rsin : α → α) (rpi : α) :
    ∀ (evs : List PtrEvent) (acc : DragState × List (CanvasOp α)),
      PrevDefined acc.1 →
      PrevDefined ((evs.foldl (accStep rcos rsin rpi) acc).1)
  | [], _, hp => hp
  | ev :: evs, acc, hp => by
      simp only [List.foldl_cons]
      exact prevDefined_runTrace rcos rsin rpi evs _
        (prevDefined_stepOps rcos rsin rpi acc.1 ev hp)

end Helpers

/-! ### Claims -/

section Claims

variable {α : Type} [Field α]

/-- C2: a pointer-move processed while dragging whose position has Manhattan
distance strictly below 3 from `(prevX, prevY)` emits no canvas operation at
all (in particular no fill or stroke) and leaves the whole state, including
`(prevX, prevY)`, unchanged. -/
theorem mouseMove_below_debounce_is_noop (rcos rsin : α → α) (rpi : α)
    (s : DragState) (e : MouseEvt) (env : EnvReads) (px py : ℤ)
    (hd : s.dragging = true) (hx : s.prevX = some px) (hy : s.prevY = some py)
    (hlt : ((e.clientX - env.rLeft) - px).natAbs +
        ((e.clientY - env.rTop) - py).natAbs < 3) :
    doMouseMove rcos rsin rpi s e env = (s, []) := by
  unfold doMouseMove
  rw [hd, hx, hy]
  simp [hlt]

/-- Witness for C2: a drag at (0,0), a move to (1,1) (Manhattan distance 2):
no operation is emitted and the state is unchanged. -/
theorem mouseMove_below_debounce_is_noop_witness :
    doMouseMove (fun q : ℚ => q) (fun q => q) 0
      { dragging := true, startX := some 0, startY := some 0,
        prevX := some 0, prevY := some 0, colorChoice := some 1,
        shapeType := some 0, docListeners :=
          [(EvType.mousemove, Handler.moveH), (EvType.mouseup, Handler.upH)] }
      ⟨0, 1, 1⟩ ⟨0, 0, 1, 0, 0, 0, 0⟩ =
    ({ dragging := true, startX := some 0, startY := some 0,
       prevX := some 0, prevY := some 0, colorChoice := some 1,
       shapeType := some 0, docListeners :=
         [(EvType.mousemove, Handler.moveH), (EvType.mouseup, Handler.upH)] },
      []) :=
  mouseMove_below_debounce_is_noop _ _ _ _ _ _ 0 0 rfl rfl rfl (by decide)

/-- C4: a qualifying pointer-move with frozen shape selection Square (0)
runs the color switch and then fills and strokes an axis-aligned 40x40
square centered on the current position (rectangle at (x-20, y-20)). -/
theorem square_stamp_fill_and_stroke (rcos rsin : α → α) (rpi : α)
    (s : DragState) (e : MouseEvt) (env : EnvReads) (px py : ℤ)
    (hd : s.dragging = true) (hx : s.prevX = some px) (hy : s.prevY = some py)
    (hshape : s.shapeType = some 0)
    (hge : 3 ≤ ((e.clientX - env.rLeft) - px).natAbs +
        ((e.clientY - env.rTop) - py).natAbs) :
    doMouseMove rcos rsin rpi s e env =
      ({ s with prevX := some ((e.clientX - env.rLeft)),
                prevY := some ((e.clientY - env.rTop)) },
        colorOps s.colorChoice env ++
          [CanvasOp.fillRect ((e.clientX - env.rLeft) - 20)
              ((e.clientY - env.rTop) - 20) 40 40,
           CanvasOp.strokeRect ((e.clientX - env.rLeft) - 20)
              ((e.clientY - env.rTop) - 20) 40 40]) := by
  rw [doMouseMove_qualifying rcos rsin rpi s e env px py hd hx hy hge, hshape]
  simp [shapeOps]

/-- Witness for C4, the spec scenario: pointer-down at (50,50) with color
choice 1 (Red) and shape choice 0 (Square), then a pointer-move to (50,55)
(Manhattan distance 5): a red 40x40 square at rectangle (30,35,40,40) is
filled and stroked. -/
theorem square_stamp_red_scenario :
    (runTrace (fun q : ℚ => q) (fun q => q) 0 initState
      [PtrEvent.down ⟨0, 50, 50⟩ ⟨0, 0, 1, 0, 0, 0, 0⟩,
       PtrEvent.move ⟨0, 50, 55⟩ ⟨0, 0, 1, 0, 0, 0, 0⟩]).2 =
    [CanvasOp.setFillStyle "red", CanvasOp.fillRect 30 35 40 40,
     CanvasOp.strokeRect 30 35 40 40] := by
  have h := square_stamp_fill_and_stroke (fun q : ℚ => q) (fun q => q) 0
    (doMouseDown initState ⟨0, 50, 50⟩ ⟨0, 0, 1, 0, 0, 0, 0⟩)
    ⟨0, 50, 55⟩ ⟨0, 0, 1, 0, 0, 0, 0⟩ 50 50 rfl rfl rfl rfl (by decide)
  have hrun : (runTrace (fun q : ℚ => q) (fun q => q) 0 initState
      [PtrEvent.down ⟨0, 50, 50⟩ ⟨0, 0, 1, 0, 0, 0, 0⟩,
       PtrEvent.move ⟨0, 50, 55⟩ ⟨0, 0, 1, 0, 0, 0, 0⟩]).2 =
      (doMouseMove (fun q : ℚ => q) (fun q => q) 0
        (doMouseDown initState ⟨0, 50, 50⟩ ⟨0, 0, 1, 0, 0, 0, 0⟩)
        ⟨0, 50, 55⟩ ⟨0, 0, 1, 0, 0, 0, 0⟩).2 := rfl
  rw [hrun, h]
  decide

/-- C6: `fillPoly` is a no-op below 6 arguments and `strokePoly` below 4;
when the minimum is met the emitted path visits the complete coordinate
pairs in order (moveTo the first, lineTo the rest) and is explicitly closed
(`closePath`) before the fill, respectively stroke, is painted. -/
theorem poly_arity_guard_and_closure :
    (∀ args : List α, args.length < 6 → fillPoly args = []) ∧
    (∀ args : List α, args.length < 4 → strokePoly args = []) ∧
    (∀ args : List α, 6 ≤ args.length → ∃ p ps, toPairs args = p :: ps ∧
      fillPoly args = CanvasOp.beginPath :: CanvasOp.moveTo p.1 p.2 ::
        (ps.map (fun q => CanvasOp.lineTo q.1 q.2) ++
          [CanvasOp.closePath, CanvasOp.fill])) ∧
    (∀ args : List α, 4 ≤ args.length → ∃ p ps, toPairs args = p :: ps ∧
      strokePoly args = CanvasOp.beginPath :: CanvasOp.moveTo p.1 p.2 ::
        (ps.map (fun q => CanvasOp.lineTo q.1 q.2) ++
          [CanvasOp.closePath, CanvasOp.stroke])) := by
  refine ⟨fun args h => ?_, fun args h => ?_, fun args h => ?_, fun args h => ?_⟩
  · unfold fillPoly; rw [if_pos h]
  · unfold strokePoly; rw [if_pos h]
  · rcases args with _ | ⟨a0, _ | ⟨a1, rest⟩⟩
    · simp at h
    · simp at h
    · refine ⟨(a0, a1), toPairs rest, rfl, ?_⟩
      unfold fillPoly
      rw [if_neg (by simp at h ⊢; omega)]
      dsimp only
      rw [lineTos_eq_map_toPairs]
  · rcases args with _ | ⟨a0, _ | ⟨a1, rest⟩⟩
    · simp at h
    · simp at h
    · refine ⟨(a0, a1), toPairs rest, rfl, ?_⟩
      unfold strokePoly
      rw [if_neg (by simp at h ⊢; omega)]
      dsimp only
      rw [lineTos_eq_map_toPairs]

/-- Witness for C6, the spec scenario: `fillPoly(0,0,10,0,5,10)` paints a
filled closed triangle, `fillPoly(0,0,10,0)` paints nothing. -/
theorem poly_triangle_scenario :
    fillPoly ([0, 0, 10, 0] : List ℚ) = [] ∧
    fillPoly ([0, 0, 10, 0, 5, 10] : List ℚ) =
      [CanvasOp.beginPath, CanvasOp.moveTo 0 0, CanvasOp.lineTo 10 0,
       CanvasOp.lineTo 5 10, CanvasOp.closePath, CanvasOp.fill] := by
  constructor
  · exact poly_arity_guard_and_closure.1 _ (by decide)
  · obtain ⟨p, ps, hp, he⟩ :=
      poly_arity_guard_and_closure.2.2.1 ([0, 0, 10, 0, 5, 10] : List ℚ)
        (by decide)
    have hpairs : toPairs ([0, 0, 10, 0, 5, 10] : List ℚ) =
        [(0, 0), (10, 0), (5, 10)] := rfl
    rw [hpairs] at hp
    injection hp with h1 h2
    rw [he, ← h1, ← h2]
    rfl

/-- C10: a polygon call with a trailing unpaired argument (odd argument
count at or above the minimum) is not rejected: the final argument is
ignored and the polygon built from the complete pairs is painted. -/
theorem poly_odd_arg_ignored (args : List α) (a : α)
    (heven : args.length % 2 = 0) :
    (6 ≤ args.length →
      fillPoly (args ++ [a]) = fillPoly args ∧ fillPoly args ≠ []) ∧
    (4 ≤ args.length →
      strokePoly (args ++ [a]) = strokePoly args ∧ strokePoly args ≠ []) := by
  constructor
  · intro h
    rcases args with _ | ⟨a0, _ | ⟨a1, rest⟩⟩
    · simp at h
    · simp at h
    · have hr : rest.length % 2 = 0 := by simp at heven; omega
      constructor
      · unfold fillPoly
        rw [if_neg (by simp at h ⊢; omega), if_neg (by simp at h ⊢; omega)]
        simp only [List.cons_append]
        rw [lineTos_append_even rest a hr]
      · unfold fillPoly
        rw [if_neg (by simp at h ⊢; omega)]
        simp
  · intro h
    rcases args with _ | ⟨a0, _ | ⟨a1, rest⟩⟩
    · simp at h
    · simp at h
    · have hr : rest.length % 2 = 0 := by simp at heven; omega
      constructor
      · unfold strokePoly
        rw [if_neg (by simp at h ⊢; omega), if_neg (by simp at h ⊢; omega)]
        simp only [List.cons_append]
        rw [lineTos_append_even rest a hr]
      · unfold strokePoly
        rw [if_neg (by simp at h ⊢; omega)]
        simp

/-- Witness for C10: `fillPoly(0,0,10,0,5,10,99)` paints the same triangle
as `fillPoly(0,0,10,0,5,10)`, and `strokePoly(0,0,10,0,99)` paints the same
segment polygon as `strokePoly(0,0,10,0)`; neither call is rejected. -/
theorem poly_odd_arg_ignored_witness :
    (fillPoly ([0, 0, 10, 0, 5, 10, 99] : List ℚ) =
        fillPoly ([0, 0, 10, 0, 5, 10] : List ℚ) ∧
      fillPoly ([0, 0, 10, 0, 5, 10] : List ℚ) ≠ []) ∧
    (strokePoly ([0, 0, 10, 0, 99] : List ℚ) =
        strokePoly ([0, 0, 10, 0] : List ℚ) ∧
      strokePoly ([0, 0, 10, 0] : List ℚ) ≠ []) :=
  ⟨(poly_odd_arg_ignored ([0, 0, 10, 0, 5, 10] : List ℚ) 99 (by decide)).1
      (by decide),
   (poly_odd_arg_ignored ([0, 0, 10, 0] : List ℚ) 99 (by decide)).2
      (by decide)⟩

/-- C1 (code bug evidence): a primary-button mousedown registers both the
move and the up document listener; the mouseup that ends the drag removes
the mousemove registration but — because `doMouseUp` passes `doMouseMove`
to `removeEventListener("mouseup", ...)` — leaves the `doMouseUp`
registration for mouseup in place after the drag ends. -/
theorem mouseUp_leaves_up_handler_registered :
    ((runTrace (fun q : ℚ => q) (fun q => q) 0 initState
        [PtrEvent.down ⟨0, 0, 0⟩ ⟨0, 0, 1, 0, 0, 0, 0⟩]).1.docListeners =
      [(EvType.mousemove, Handler.moveH), (EvType.mouseup, Handler.upH)]) ∧
    ((runTrace (fun q : ℚ => q) (fun q => q) 0 initState
        [PtrEvent.down ⟨0, 0, 0⟩ ⟨0, 0, 1, 0, 0, 0, 0⟩,
         PtrEvent.up ⟨0, 0, 0⟩ ⟨0, 0, 1, 0, 0, 0, 0⟩]).1.dragging = false) ∧
    ((runTrace (fun q : ℚ => q) (fun q => q) 0 initState
        [PtrEvent.down ⟨0, 0, 0⟩ ⟨0, 0, 1, 0, 0, 0, 0⟩,
         PtrEvent.up ⟨0, 0, 0⟩ ⟨0, 0, 1, 0, 0, 0, 0⟩]).1.docListeners =
      [(EvType.mouseup, Handler.upH)]) :=
  ⟨by decide, by decide, by decide⟩

/-- C3: the star stamp paints exactly 15 path commands — one moveTo (at
angle 0) followed by 14 lineTo commands at angles `k * 2 * pi / 13` for
`k = 0 .. 13` inclusive — every vertex at distance 50 from `(x, y)`, and
the path is then filled and stroked. -/
theorem star_stamp_path_structure (x y : ℤ) :
    ((starOps Real.cos Real.sin Real.pi x y).filter
        CanvasOp.isPathCmd).length = 15 ∧
    starOps Real.cos Real.sin Real.pi x y =
      CanvasOp.beginPath ::
        CanvasOp.moveTo
          ((x : ℝ) + 50 * Real.cos (((0 : ℕ) : ℝ) * 2 * Real.pi / 13))
          ((y : ℝ) + 50 * Real.sin (((0 : ℕ) : ℝ) * 2 * Real.pi / 13)) ::
        ((List.range 14).map (fun k : ℕ =>
          CanvasOp.lineTo
            ((x : ℝ) + 50 * Real.cos ((k : ℝ) * 2 * Real.pi / 13))
            ((y : ℝ) + 50 * Real.sin ((k : ℝ) * 2 * Real.pi / 13))) ++
          [CanvasOp.fill, CanvasOp.stroke]) ∧
    ∀ k : ℕ,
      (((x : ℝ) + 50 * Real.cos ((k : ℝ) * 2 * Real.pi / 13)) - (x : ℝ)) ^ 2 +
          (((y : ℝ) + 50 * Real.sin ((k : ℝ) * 2 * Real.pi / 13)) - (y : ℝ)) ^ 2
        = 50 ^ 2 := by
  refine ⟨?_, starOps_real_structure x y, ?_⟩
  · rw [starOps_real_structure x y, List.filter_cons_of_neg (by decide),
      List.filter_cons_of_pos (by rfl), List.filter_append,
      filter_isPathCmd_map_lineTo, List.filter_cons_of_neg (by decide),
      List.filter_cons_of_neg (by decide), List.filter_nil]
    rw [List.length_cons, List.length_append, List.length_map,
      List.length_range, List.length_nil]
  · intro k
    simp only [add_sub_cancel_left, mul_pow]
    rw [← mul_add, Real.cos_sq_add_sin_sq, mul_one]

/-- C5 counterexample: a drag started with color choice 5 (outside the
enumerated set 0..4) and shape choice 0, followed by a qualifying move,
still paints (the square is filled and stroked with the stale fill style),
contradicting the claim that no paint action occurs for such a stamp. -/
theorem out_of_range_color_still_paints :
    ¬((5 : ℤ) = 0 ∨ (5 : ℤ) = 1 ∨ (5 : ℤ) = 2 ∨ (5 : ℤ) = 3 ∨ (5 : ℤ) = 4) ∧
    (runTrace (fun q : ℚ => q) (fun q => q) 0 initState
      [PtrEvent.down ⟨0, 0, 0⟩ ⟨0, 0, 5, 0, 0, 0, 0⟩,
       PtrEvent.move ⟨0, 5, 0⟩ ⟨0, 0, 5, 0, 0, 0, 0⟩]).1.colorChoice
      = some 5 ∧
    ((runTrace (fun q : ℚ => q) (fun q => q) 0 initState
      [PtrEvent.down ⟨0, 0, 0⟩ ⟨0, 0, 5, 0, 0, 0, 0⟩,
       PtrEvent.move ⟨0, 5, 0⟩ ⟨0, 0, 5, 0, 0, 0, 0⟩]).2.any
        CanvasOp.isPaint) = true :=
  ⟨by decide, by decide, by decide⟩

/-- C5 amended: on a qualifying move, an out-of-range shape selection
paints nothing and an out-of-range color selection assigns no fill style
(each switch falls through its missing default case independently), while
`(prevX, prevY)` is still updated to the current position. -/
theorem out_of_range_selection_behavior (rcos rsin : α → α) (rpi : α)
    (s : DragState) (e : MouseEvt) (env : EnvReads) (px py : ℤ)
    (hd : s.dragging = true) (hx : s.prevX = some px) (hy : s.prevY = some py)
    (hge : 3 ≤ ((e.clientX - env.rLeft) - px).natAbs +
        ((e.clientY - env.rTop) - py).natAbs) :
    (s.shapeType ≠ some 0 → s.shapeType ≠ some 1 →
      ((doMouseMove rcos rsin rpi s e env).2.any CanvasOp.isPaint) = false) ∧
    (s.colorChoice ≠ some 0 → s.colorChoice ≠ some 1 →
      s.colorChoice ≠ some 2 → s.colorChoice ≠ some 3 →
      s.colorChoice ≠ some 4 →
      ((doMouseMove rcos rsin rpi s e env).2.any CanvasOp.isSetStyle)
        = false) ∧
    (doMouseMove rcos rsin rpi s e env).1.prevX
      = some (e.clientX - env.rLeft) ∧
    (doMouseMove rcos rsin rpi s e env).1.prevY
      = some (e.clientY - env.rTop) := by
  rw [doMouseMove_qualifying rcos rsin rpi s e env px py hd hx hy hge]
  refine ⟨fun h0 h1 => ?_, fun c0 c1 c2 c3 c4 => ?_, rfl, rfl⟩
  · rw [shapeOps_unmatched rcos rsin rpi s.shapeType _ _ h0 h1]
    simp [colorOps_any_paint]
  · rw [colorOps_unmatched s.colorChoice env c0 c1 c2 c3 c4]
    simp [shapeOps_any_setStyle]

/-- Witness for C5 (amended): in a drag frozen with color choice 7 and
shape choice 9, a qualifying move to (5,0) paints nothing and assigns no
fill style, yet updates the previous position. -/
theorem out_of_range_selection_behavior_witness :
    ((doMouseMove (fun q : ℚ => q) (fun q => q) 0
        { dragging := true, startX := some 0, startY := some 0,
          prevX := some 0, prevY := some 0, colorChoice := some 7,
          shapeType := some 9, docListeners := [] }
        ⟨0, 5, 0⟩ ⟨0, 0, 7, 9, 0, 0, 0⟩).2.any CanvasOp.isPaint) = false ∧
    ((doMouseMove (fun q : ℚ => q) (fun q => q) 0
        { dragging := true, startX := some 0, startY := some 0,
          prevX := some 0, prevY := some 0, colorChoice := some 7,
          shapeType := some 9, docListeners := [] }
        ⟨0, 5, 0⟩ ⟨0, 0, 7, 9, 0, 0, 0⟩).2.any CanvasOp.isSetStyle) = false ∧
    (doMouseMove (fun q : ℚ => q) (fun q => q) 0
        { dragging := true, startX := some 0, startY := some 0,
          prevX := some 0, prevY := some 0, colorChoice := some 7,
          shapeType := some 9, docListeners := [] }
        ⟨0, 5, 0⟩ ⟨0, 0, 7, 9, 0, 0, 0⟩).1.prevX = some 5 ∧
    (doMouseMove (fun q : ℚ => q) (fun q => q) 0
        { dragging := true, startX := some 0, startY := some 0,
          prevX := some 0, prevY := some 0, colorChoice := some 7,
          shapeType := some 9, docListeners := [] }
        ⟨0, 5, 0⟩ ⟨0, 0, 7, 9, 0, 0, 0⟩).1.prevY = some 0 := by
  have h := out_of_range_selection_behavior (fun q : ℚ => q) (fun q => q) 0
    { dragging := true, startX := some 0, startY := some 0,
      prevX := some 0, prevY := some 0, colorChoice := some 7,
      shapeType := some 9, docListeners := [] }
    ⟨0, 5, 0⟩ ⟨0, 0, 7, 9, 0, 0, 0⟩ 0 0 rfl rfl rfl (by decide)
  exact ⟨h.1 (by decide) (by decide),
    h.2.1 (by decide) (by decide) (by decide) (by decide) (by decide),
    h.2.2.1, h.2.2.2⟩

/-- C7: `fillOval` and `strokeOval` each run exactly save, translate,
scale, beginPath, unit-circle arc, restore, and only then the paint
operation; under the transform semantics the painted path is the ellipse
centered at `(x, y)` with radii `(rh, rv)`, painted under the restored
(identity) transform, and with radii 10 and 20 the horizontal extent is
half the vertical extent. -/
theorem oval_scoped_transform_semantics (x y rh rv : ℝ) :
    fillOval Real.pi x y rh rv =
      [CanvasOp.save, CanvasOp.translate x y, CanvasOp.scale rh rv,
       CanvasOp.beginPath, CanvasOp.arc 0 0 1 0 (2 * Real.pi) false,
       CanvasOp.restore, CanvasOp.fill] ∧
    strokeOval Real.pi x y rh rv =
      [CanvasOp.save, CanvasOp.translate x y, CanvasOp.scale rh rv,
       CanvasOp.beginPath, CanvasOp.arc 0 0 1 0 (2 * Real.pi) false,
       CanvasOp.restore, CanvasOp.stroke] ∧
    (interpRun (fillOval Real.pi x y rh rv)).painted =
      [([{ cx := x, cy := y, rx := rh, ry := rv }], Xform.id0)] ∧
    (interpRun (strokeOval Real.pi x y rh rv)).painted =
      [([{ cx := x, cy := y, rx := rh, ry := rv }], Xform.id0)] ∧
    (∃ el : EllipseShape ℝ, ∃ xf : Xform ℝ,
      (interpRun (fillOval Real.pi x y 10 20)).painted = [([el], xf)] ∧
      el.cx = x ∧ el.cy = y ∧ xf = Xform.id0 ∧
      2 * el.rx = (2 * el.ry) / 2) := by
  refine ⟨rfl, rfl, ?_, ?_, ?_⟩
  · simp [interpRun, fillOval, interpOp, Xform.translateBy, Xform.scaleBy,
      Xform.id0]
  · simp [interpRun, strokeOval, interpOp, Xform.translateBy, Xform.scaleBy,
      Xform.id0]
  · refine ⟨{ cx := x, cy := y, rx := 10, ry := 20 }, Xform.id0, ?_, rfl,
      rfl, rfl, by norm_num⟩
    simp [interpRun, fillOval, interpOp, Xform.translateBy, Xform.scaleBy,
      Xform.id0]

/-- C8 counterexample: after a completed drag (mousedown at (0,0), then
mouseup) the controller is Idle (`dragging = false`) but `prevX`/`prevY`
still hold the last recorded position — `lastPosition` is not cleared on
pointer-up, so it is not undefined in every Idle state. -/
theorem idle_state_retains_lastPosition :
    Reachable (fun q : ℚ => q) (fun q => q) 0
      (runTrace (fun q : ℚ => q) (fun q => q) 0 initState
        [PtrEvent.down ⟨0, 0, 0⟩ ⟨0, 0, 1, 0, 0, 0, 0⟩,
         PtrEvent.up ⟨0, 0, 0⟩ ⟨0, 0, 1, 0, 0, 0, 0⟩]).1 ∧
    (runTrace (fun q : ℚ => q) (fun q => q) 0 initState
      [PtrEvent.down ⟨0, 0, 0⟩ ⟨0, 0, 1, 0, 0, 0, 0⟩,
       PtrEvent.up ⟨0, 0, 0⟩ ⟨0, 0, 1, 0, 0, 0, 0⟩]).1.dragging = false ∧
    (runTrace (fun q : ℚ => q) (fun q => q) 0 initState
      [PtrEvent.down ⟨0, 0, 0⟩ ⟨0, 0, 1, 0, 0, 0, 0⟩,
       PtrEvent.up ⟨0, 0, 0⟩ ⟨0, 0, 1, 0, 0, 0, 0⟩]).1.prevX = some 0 ∧
    (runTrace (fun q : ℚ => q) (fun q => q) 0 initState
      [PtrEvent.down ⟨0, 0, 0⟩ ⟨0, 0, 1, 0, 0, 0, 0⟩,
       PtrEvent.up ⟨0, 0, 0⟩ ⟨0, 0, 1, 0, 0, 0, 0⟩]).1.prevY = some 0 :=
  ⟨⟨_, rfl⟩, by decide, by decide, by decide⟩

/-- C8 amended: in every reachable controller state, `lastPosition` is
defined whenever the drag is active (the converse direction fails: after a
drag ends, `prevX`/`prevY` keep their last values in the Idle state). -/
theorem dragging_implies_lastPosition_defined (rcos rsin : α → α) (rpi : α)
    (s : DragState) (hr : Reachable rcos rsin rpi s)
    (hd : s.dragging = true) : s.prevX ≠ none ∧ s.prevY ≠ none := by
  obtain ⟨evs, rfl⟩ := hr
  exact prevDefined_runTrace rcos rsin rpi evs (initState, [])
    (fun h => absurd h (by simp [initState])) hd

/-- Witness for C8 (amended): the state reached by a single mousedown at
(0,0) is dragging, and its `prevX`/`prevY` are defined. -/
theorem dragging_implies_lastPosition_defined_witness :
    (runTrace (fun q : ℚ => q) (fun q => q) 0 initState
      [PtrEvent.down ⟨0, 0, 0⟩ ⟨0, 0, 1, 0, 0, 0, 0⟩]).1.prevX ≠ none ∧
    (runTrace (fun q : ℚ => q) (fun q => q) 0 initState
      [PtrEvent.down ⟨0, 0, 0⟩ ⟨0, 0, 1, 0, 0, 0, 0⟩]).1.prevY ≠ none :=
  dragging_implies_lastPosition_defined (fun q : ℚ => q) (fun q => q) 0 _
    ⟨_, rfl⟩ rfl

/-- C9: the UI selections are read only by `doMouseDown`; a qualifying
move neither reads nor changes the frozen `colorChoice`/`shapeType` (its
result is unchanged under arbitrary mid-drag UI values), and with the Red
selection frozen, every stamp of the drag assigns the identical fill style
string "red". -/
theorem selection_frozen_during_drag (rcos rsin : α → α) (rpi : α)
    (s : DragState) (e : MouseEvt) (env : EnvReads) (c d : ℤ) (px py : ℤ)
    (hc : s.colorChoice = some 1) (hd : s.dragging = true)
    (hx : s.prevX = some px) (hy : s.prevY = some py)
    (hge : 3 ≤ ((e.clientX - env.rLeft) - px).natAbs +
        ((e.clientY - env.rTop) - py).natAbs) :
    doMouseMove rcos rsin rpi s e env =
      doMouseMove rcos rsin rpi s e
        { env with colorVal := c, shapeVal := d } ∧
    (doMouseMove rcos rsin rpi s e env).1.colorChoice = some 1 ∧
    (doMouseMove rcos rsin rpi s e env).1.shapeType = s.shapeType ∧
    (doMouseMove rcos rsin rpi s e env).2 =
      CanvasOp.setFillStyle "red" ::
        shapeOps rcos rsin rpi s.shapeType (e.clientX - env.rLeft)
          (e.clientY - env.rTop) := by
  refine ⟨rfl, ?_, ?_, ?_⟩
  · rw [doMouseMove_qualifying rcos rsin rpi s e env px py hd hx hy hge]
    exact hc
  · rw [doMouseMove_qualifying rcos rsin rpi s e env px py hd hx hy hge]
  · rw [doMouseMove_qualifying rcos rsin rpi s e env px py hd hx hy hge, hc]
    simp [colorOps]

/-- Witness for C9: with Red frozen and mid-drag UI values 3 and 1 in the
environment, a qualifying move to (9,0) behaves exactly as with any other
UI values and stamps with fill style "red". -/
theorem selection_frozen_during_drag_witness :
    doMouseMove (fun q : ℚ => q) (fun q => q) 0
      { dragging := true, startX := some 0, startY := some 0,
        prevX := some 0, prevY := some 0, colorChoice := some 1,
        shapeType := some 0, docListeners := [] }
      ⟨0, 9, 0⟩ ⟨0, 0, 3, 1, 0, 0, 0⟩ =
    doMouseMove (fun q : ℚ => q) (fun q => q) 0
      { dragging := true, startX := some 0, startY := some 0,
        prevX := some 0, prevY := some 0, colorChoice := some 1,
        shapeType := some 0, docListeners := [] }
      ⟨0, 9, 0⟩ ⟨0, 0, 0, 0, 0, 0, 0⟩ ∧
    (doMouseMove (fun q : ℚ => q) (fun q => q) 0
      { dragging := true, startX := some 0, startY := some 0,
        prevX := some 0, prevY := some 0, colorChoice := some 1,
        shapeType := some 0, docListeners := [] }
      ⟨0, 9, 0⟩ ⟨0, 0, 3, 1, 0, 0, 0⟩).2 =
    [CanvasOp.setFillStyle "red", CanvasOp.fillRect (-11) (-20) 40 40,
     CanvasOp.strokeRect (-11) (-20) 40 40] := by
  have h := selection_frozen_during_drag (fun q : ℚ => q) (fun q => q) 0
    { dragging := true, startX := some 0, startY := some 0,
      prevX := some 0, prevY := some 0, colorChoice := some 1,
      shapeType := some 0, docListeners := [] }
    ⟨0, 9, 0⟩ ⟨0, 0, 3, 1, 0, 0, 0⟩ 0 0 0 0 rfl rfl rfl rfl (by decide)
  refine ⟨h.1, ?_⟩
  rw [h.2.2.2]
  decide

end Claims

end Lab1
